import Mathlib

/-!
Shallow embedding of the log-parsing core of src/analysis/omnetpp_analysis.py
(the data model NodeStats / AlgorithmMetrics and the method
OMNetPPLogParser.parse).  A log is the list of its lines, each line a Lean
String.  The regular-expression searches of the Python source are embedded as
explicit leftmost-match scanners over the character list of a line; the regex
class of digits is modelled as ASCII digits and the word class as ASCII
alphanumerics plus underscore, and str.lower as Char.toLower, which agree with
Python on the ASCII inputs exercised here.  Each suffix that follows a
captured digit run in the source patterns starts with a non-digit character,
so the greedy maximal digit run is the only possible capture and no
backtracking is needed.
-/

/-- Value of a decimal digit string as a natural number (Python int applied to
the captured group of consecutive digits). -/
def digitsToNat (ds : List Char) : Nat :=
  ds.foldl (fun a c => 10 * a + (c.toNat - 48)) 0

/-- ASCII model of the regex word class: letters, digits and underscore. -/
def isWordChar (c : Char) : Bool := c.isAlphanum || c == '_'

/-- Substring test, modelling the Python expression pat in line. -/
def containsSub (pat : List Char) : List Char → Bool
  | [] => pat.isEmpty
  | c :: cs => pat.isPrefixOf (c :: cs) || containsSub pat cs

/-- Try to match, starting exactly at the head of s, the literal pre, then one
or more digits (the greedy maximal run), then the literal suf; returns the
captured number on success. -/
def matchNumAt (pre suf s : List Char) : Option Nat :=
  if pre.isPrefixOf s then
    let rest := s.drop pre.length
    let ds := rest.takeWhile Char.isDigit
    if ds.isEmpty then none
    else if suf.isPrefixOf (rest.drop ds.length) then some (digitsToNat ds)
    else none
  else none

/-- Leftmost search for the pattern pre, digits, suf anywhere in the line
(Python re.search): positions are tried left to right and the first full match
wins. -/
def searchNum (pre suf : List Char) : List Char → Option Nat
  | [] => matchNumAt pre suf []
  | c :: cs =>
    match matchNumAt pre suf (c :: cs) with
    | some n => some n
    | none => searchNum pre suf cs

/-- Try to match, starting exactly at the head of s, the literal pre followed
by one or more word characters; returns the captured word on success. -/
def matchWordAt (pre s : List Char) : Option String :=
  if pre.isPrefixOf s then
    let ws := (s.drop pre.length).takeWhile isWordChar
    if ws.isEmpty then none else some (String.mk ws)
  else none

/-- Leftmost search for the pattern pre followed by a word anywhere in the
line (Python re.search). -/
def searchWord (pre : List Char) : List Char → Option String
  | [] => matchWordAt pre []
  | c :: cs =>
    match matchWordAt pre (c :: cs) with
    | some w => some w
    | none => searchWord pre cs

/-- Recognizer for the event counter, source line 76. -/
def eventCap (line : String) : Option Nat :=
  searchNum ("Event #".data) [] line.data

/-- Recognizer for a node-section header, source line 101. -/
def nodeStartCap (line : String) : Option Nat :=
  searchNum ("Node ".data) (" statistics:".data) line.data

/-- Recognizer for the messages-sent field, source line 120. -/
def msgSentCap (line : String) : Option Nat :=
  searchNum ("Messages Sent: ".data) [] line.data

/-- Recognizer for the rounds-completed field, source line 126. -/
def roundsCompCap (line : String) : Option Nat :=
  searchNum ("Rounds Completed: ".data) [] line.data

/-- Recognizer for the final-state field, source line 132. -/
def finalStateCap (line : String) : Option String :=
  searchWord ("Final State: ".data) line.data

/-- Recognizer for the leader-flag field, source line 139. -/
def isLeaderCap (line : String) : Option String :=
  searchWord ("Is Leader: ".data) line.data

/-- Recognizer for the final-leader-number field, source line 146. -/
def finalLeaderCap (line : String) : Option Nat :=
  searchNum ("Final Leader: ".data) [] line.data

/-- Recognizer for the finish-section marker, source line 95. -/
def finishMarker (line : String) : Bool :=
  containsSub ("Calling finish() methods".data) line.data

/-- The NodeStats dataclass of the source, lines 29-36. -/
structure NodeStats where
  node_id : Nat
  messages_sent : Nat
  rounds_completed : Nat
  final_state : String
  is_leader : Bool
deriving DecidableEq, Repr

/-- The AlgorithmMetrics dataclass of the source, lines 39-48.  The Python
round_details dict is modelled as the ordered list of appended pairs of round
number and stripped line, which determines the dict. -/
structure AlgorithmMetrics where
  algorithm_name : String
  total_messages : Nat
  total_rounds : Nat
  leader_id : Int
  node_stats : List NodeStats
  total_events : Nat
  round_details : List (Nat × String)
deriving DecidableEq, Repr

/-- The chain of field recognizers applied to the in-progress record for a
line inside the finish section, source lines 119-153: Messages Sent, Rounds
Completed, Final State, Is Leader, Final Leader are tried in this order, the
first match is applied and the rest skipped; an unmatched line leaves the
record unchanged. -/
def applyField (cs : NodeStats) (line : String) : NodeStats :=
  match msgSentCap line with
  | some n => { cs with messages_sent := n }
  | none =>
    match roundsCompCap line with
    | some n => { cs with rounds_completed := n }
    | none =>
      match finalStateCap line with
      | some w => { cs with final_state := w, is_leader := w == "LEADER" }
      | none =>
        match isLeaderCap line with
        | some w =>
          { cs with is_leader := w == "YES",
                    final_state := if w == "YES" then "LEADER" else "NON_LEADER" }
        | none =>
          match finalLeaderCap line with
          | some k =>
            if cs.final_state = "" then
              { cs with is_leader := k == cs.node_id,
                        final_state := if k == cs.node_id then "LEADER" else "NON_LEADER" }
            else cs
          | none => cs

/-- The mutable state of the node-statistics pass, source lines 89-91. -/
structure ParseState where
  in_finish : Bool
  current : Option NodeStats
  completed : List NodeStats
deriving DecidableEq, Repr

/-- Finalize the in-progress record: it is appended to the completed list only
when its messages-sent count is positive, source lines 104-105 and 156-157. -/
def finalizeStats (s : ParseState) : List NodeStats :=
  match s.current with
  | some cs => if 0 < cs.messages_sent then s.completed ++ [cs] else s.completed
  | none => s.completed

/-- One step of the node-statistics pass for one line, source lines 93-153:
the finish-section marker is checked first for every line; outside the finish
section nothing else happens; inside it, a node header finalizes the previous
record and opens a fresh one, and otherwise the field-recognizer chain is
applied to the in-progress record when one exists. -/
def stepNode (s : ParseState) (line : String) : ParseState :=
  if finishMarker line then { s with in_finish := true }
  else if s.in_finish = false then s
  else
    match nodeStartCap line with
    | some nid =>
      { in_finish := true,
        current := some ⟨nid, 0, 0, "", false⟩,
        completed := finalizeStats s }
    | none =>
      match s.current with
      | none => s
      | some cs => { s with current := some (applyField cs line) }

/-- The retained node records of a log: the node-statistics pass over all
lines followed by finalization of the last in-progress record, source lines
89-157. -/
def nodeStatsOf (lines : List String) : List NodeStats :=
  finalizeStats (lines.foldl stepNode ⟨false, none, []⟩)

/-- The leader search, source lines 160-164: the node id of the first retained
record flagged as leader, with sentinel -1 when there is none. -/
def findLeaderId : List NodeStats → Int
  | [] => -1
  | s :: rest => if s.is_leader then (s.node_id : Int) else findLeaderId rest

/-- The total-rounds aggregate, source line 168: the maximum rounds-completed
over the retained records, 0 when there are none. -/
def maxRoundsOf (ns : List NodeStats) : Nat :=
  match ns with
  | [] => 0
  | _ => (ns.map (fun s => s.rounds_completed)).foldl Nat.max 0

/-- Algorithm-name detection from the first line, source lines 66-71. -/
def algNameOf (first : String) : String :=
  if containsSub ("Arbitrary".data) first.data then "Arbitrary Election"
  else if containsSub ("Anonymous".data) first.data then "Anonymous Election"
  else "Unknown"

/-- The running maximum of event numbers, source lines 74-78. -/
def totalEventsAux (acc : Nat) : List String → Nat
  | [] => acc
  | l :: ls =>
    totalEventsAux (match eventCap l with | some n => Nat.max acc n | none => acc) ls

/-- The total-events aggregate over all lines of the log. -/
def totalEventsOf (lines : List String) : Nat := totalEventsAux 0 lines

/-- ASCII model of Python str.lower. -/
def lowerStr (s : String) : String := String.mk (s.data.map Char.toLower)

/-- ASCII model of Python str.strip. -/
def stripStr (s : String) : String :=
  String.mk (((s.data.dropWhile Char.isWhitespace).reverse.dropWhile
    Char.isWhitespace).reverse)

/-- Recognizer for a round mention on the lowercased line, source line 83. -/
def roundCap (line : String) : Option Nat :=
  searchNum ("round ".data) [] (lowerStr line).data

/-- The round-details pass, source lines 81-86: every line whose lowercase
form mentions a round number and which carries the informational marker is
appended, stripped, under that round number. -/
def roundDetailsOf (lines : List String) : List (Nat × String) :=
  lines.foldl
    (fun acc l =>
      match roundCap l with
      | some n => if containsSub ("INFO:".data) l.data then acc ++ [(n, stripStr l)] else acc
      | none => acc)
    []

/-- The parse method, source lines 60-178.  The subscript of the first line at
source line 66 raises IndexError on a log with no lines; this failure is
modelled by the none result.  On a nonempty log the method always returns the
metrics record assembled at source lines 170-178. -/
def parseMetrics (lines : List String) : Option AlgorithmMetrics :=
  match lines with
  | [] => none
  | first :: rest =>
    some
      { algorithm_name := algNameOf first
        total_messages := ((nodeStatsOf (first :: rest)).map (fun s => s.messages_sent)).sum
        total_rounds := maxRoundsOf (nodeStatsOf (first :: rest))
        leader_id := findLeaderId (nodeStatsOf (first :: rest))
        node_stats := nodeStatsOf (first :: rest)
        total_events := totalEventsOf (first :: rest)
        round_details := roundDetailsOf (first :: rest) }

/-- Node ids currently held in the parser state: those of the completed
records followed by that of the in-progress one when it exists.  Used to
track where retained node ids can come from. -/
def stateIds (s : ParseState) : List Nat :=
  s.completed.map (fun x => x.node_id) ++
    (match s.current with | some c => [c.node_id] | none => [])

/-! Concrete logs and their expected parse results, used to instantiate the
claims below on executable inputs. -/

/-- A log whose single node sees a Final State line and then a Final Leader
line naming a different node. -/
def c1log : List String :=
  ["Arbitrary hdr", "Calling finish() methods", "Node 0 statistics:",
   "Messages Sent: 4", "Final State: LEADER", "Final Leader: 3"]

/-- Expected parse result of c1log. -/
def c1M : AlgorithmMetrics :=
  { algorithm_name := "Arbitrary Election", total_messages := 4, total_rounds := 0,
    leader_id := 0, node_stats := [⟨0, 4, 0, "LEADER", true⟩],
    total_events := 0, round_details := [] }

/-- A log whose single node sees a Final State line and then a leader-flag
line that contradicts it. -/
def c2log : List String :=
  ["Arbitrary hdr", "Calling finish() methods", "Node 0 statistics:",
   "Messages Sent: 2", "Final State: LEADER", "Is Leader: NO"]

/-- Expected parse result of c2log: the leader-flag line overwrote the state. -/
def c2Mfull : AlgorithmMetrics :=
  { algorithm_name := "Arbitrary Election", total_messages := 2, total_rounds := 0,
    leader_id := -1, node_stats := [⟨0, 2, 0, "NON_LEADER", false⟩],
    total_events := 0, round_details := [] }

/-- Expected parse result of the first five lines of c2log, before the
leader-flag line: the Final State line had established the leader state. -/
def c2Mpre : AlgorithmMetrics :=
  { algorithm_name := "Arbitrary Election", total_messages := 2, total_rounds := 0,
    leader_id := 0, node_stats := [⟨0, 2, 0, "LEADER", true⟩],
    total_events := 0, round_details := [] }

/-- A minimal log with one retained node. -/
def c3log : List String :=
  ["hdr", "Calling finish() methods", "Node 1 statistics:", "Messages Sent: 7"]

/-- Expected parse result of c3log. -/
def c3M : AlgorithmMetrics :=
  { algorithm_name := "Unknown", total_messages := 7, total_rounds := 0,
    leader_id := -1, node_stats := [⟨1, 7, 0, "", false⟩],
    total_events := 0, round_details := [] }

/-- A one-line log matching no recognizer at all. -/
def c4log : List String := ["@@@ malformed @@@"]

/-- Expected parse result of c4log: all-default aggregates, no nodes. -/
def c4M : AlgorithmMetrics :=
  { algorithm_name := "Unknown", total_messages := 0, total_rounds := 0,
    leader_id := -1, node_stats := [], total_events := 0, round_details := [] }

/-- A log in which one line carries both an event counter and a node header. -/
def c5log : List String :=
  ["hdr", "Calling finish() methods", "Event #7 Node 0 statistics:",
   "Messages Sent: 5"]

/-- Expected parse result of c5log: the doubly matching line was counted by
the event pass and also opened a node record. -/
def c5M : AlgorithmMetrics :=
  { algorithm_name := "Unknown", total_messages := 5, total_rounds := 0,
    leader_id := -1, node_stats := [⟨0, 5, 0, "", false⟩],
    total_events := 7, round_details := [] }

/-- A log in which one line carries both an event counter and a messages-sent
field. -/
def c5blog : List String :=
  ["hdr", "Calling finish() methods", "Node 2 statistics:",
   "Event #9 Messages Sent: 5"]

/-- Expected parse result of c5blog: the doubly matching line was counted by
the event pass and also set the messages-sent field. -/
def c5bM : AlgorithmMetrics :=
  { algorithm_name := "Unknown", total_messages := 5, total_rounds := 0,
    leader_id := -1, node_stats := [⟨2, 5, 0, "", false⟩],
    total_events := 9, round_details := [] }

/-- A log with one retained node and no leader signal anywhere. -/
def c6log : List String :=
  ["hdr", "Calling finish() methods", "Node 0 statistics:", "Messages Sent: 3"]

/-- Expected parse result of c6log: the sentinel leader id. -/
def c6M : AlgorithmMetrics :=
  { algorithm_name := "Unknown", total_messages := 3, total_rounds := 0,
    leader_id := -1, node_stats := [⟨0, 3, 0, "", false⟩],
    total_events := 0, round_details := [] }

/-- A log with out-of-order event counters. -/
def c7log : List String := ["hdr", "Event #5", "Event #2", "Event #9"]

/-- Expected parse result of c7log: the maximum event number. -/
def c7M : AlgorithmMetrics :=
  { algorithm_name := "Unknown", total_messages := 0, total_rounds := 0,
    leader_id := -1, node_stats := [], total_events := 9, round_details := [] }

/-- A log with two retained nodes. -/
def c8log : List String :=
  ["hdr", "Calling finish() methods", "Node 0 statistics:", "Messages Sent: 3",
   "Node 1 statistics:", "Messages Sent: 4"]

/-- Expected parse result of c8log. -/
def c8M : AlgorithmMetrics :=
  { algorithm_name := "Unknown", total_messages := 7, total_rounds := 0,
    leader_id := -1,
    node_stats := [⟨0, 3, 0, "", false⟩, ⟨1, 4, 0, "", false⟩],
    total_events := 0, round_details := [] }

/-- A log with two node headers carrying the same id, each followed by a
nonzero message count. -/
def c9log : List String :=
  ["hdr", "Calling finish() methods", "Node 0 statistics:", "Messages Sent: 1",
   "Node 0 statistics:", "Messages Sent: 2"]

/-- Expected parse result of c9log: two retained records with the same id. -/
def c9M : AlgorithmMetrics :=
  { algorithm_name := "Unknown", total_messages := 3, total_rounds := 0,
    leader_id := -1,
    node_stats := [⟨0, 1, 0, "", false⟩, ⟨0, 2, 0, "", false⟩],
    total_events := 0, round_details := [] }

/-- A log with two node headers carrying distinct ids. -/
def c9wlog : List String :=
  ["hdr", "Calling finish() methods", "Node 3 statistics:", "Messages Sent: 2",
   "Node 4 statistics:", "Messages Sent: 6"]

/-- Expected parse result of c9wlog. -/
def c9wM : AlgorithmMetrics :=
  { algorithm_name := "Unknown", total_messages := 8, total_rounds := 0,
    leader_id := -1,
    node_stats := [⟨3, 2, 0, "", false⟩, ⟨4, 6, 0, "", false⟩],
    total_events := 0, round_details := [] }

/-! Helper lemmas about the parser state machine. -/

/-- A line carrying the finish marker only flips the section flag, source
lines 95-97. -/
theorem stepNode_marker (s : ParseState) (line : String) (hf : finishMarker line = true) :
    stepNode s line = { s with in_finish := true } := by
  simp [stepNode, hf]

/-- Outside the finish section a line without the marker changes nothing,
source lines 99 and 93. -/
theorem stepNode_outside (s : ParseState) (line : String) (hf : finishMarker line = false)
    (hin : s.in_finish = false) : stepNode s line = s := by
  simp [stepNode, hf, hin]

/-- A node header inside the finish section finalizes the previous record and
opens a fresh one, source lines 101-114. -/
theorem stepNode_nodeStart (s : ParseState) (line : String) (nid : Nat)
    (hf : finishMarker line = false) (hin : s.in_finish = true)
    (hn : nodeStartCap line = some nid) :
    stepNode s line =
      { in_finish := true, current := some ⟨nid, 0, 0, "", false⟩,
        completed := finalizeStats s } := by
  simp [stepNode, hf, hin, hn]

/-- With no in-progress record a non-header line is ignored, source lines
116-117. -/
theorem stepNode_noCurrent (s : ParseState) (line : String)
    (hf : finishMarker line = false) (hin : s.in_finish = true)
    (hn : nodeStartCap line = none) (hc : s.current = none) :
    stepNode s line = s := by
  simp [stepNode, hf, hin, hn, hc]

/-- With an in-progress record a non-header line goes through the
field-recognizer chain, source lines 119-153. -/
theorem stepNode_field (s : ParseState) (line : String) (cs : NodeStats)
    (hf : finishMarker line = false) (hin : s.in_finish = true)
    (hn : nodeStartCap line = none) (hc : s.current = some cs) :
    stepNode s line = { s with current := some (applyField cs line) } := by
  simp [stepNode, hf, hin, hn, hc]

/-- Finalization preserves positivity of the messages-sent counts: the guard
of source lines 104 and 156 admits only positive counts. -/
theorem finalizeStats_pos : ∀ (s : ParseState), (∀ x ∈ s.completed, 0 < x.messages_sent) →
    ∀ x ∈ finalizeStats s, 0 < x.messages_sent := by
  rintro ⟨fin, cur, comp⟩ hc x hx
  cases cur with
  | none => exact hc x hx
  | some cs =>
    dsimp [finalizeStats] at hx
    by_cases hm : 0 < cs.messages_sent
    · rw [if_pos hm] at hx
      rcases List.mem_append.mp hx with h | h
      · exact hc x h
      · cases List.mem_singleton.mp h; exact hm
    · rw [if_neg hm] at hx; exact hc x hx

/-- One parser step preserves positivity of the completed message counts. -/
theorem stepNode_completed_pos (s : ParseState) (line : String)
    (hc : ∀ x ∈ s.completed, 0 < x.messages_sent) :
    ∀ x ∈ (stepNode s line).completed, 0 < x.messages_sent := by
  by_cases hf : finishMarker line = true
  · rw [stepNode_marker s line hf]; exact hc
  · rw [Bool.not_eq_true] at hf
    by_cases hin : s.in_finish = true
    · cases hn : nodeStartCap line with
      | some nid =>
        rw [stepNode_nodeStart s line nid hf hin hn]
        exact finalizeStats_pos s hc
      | none =>
        cases hcur : s.current with
        | none => rw [stepNode_noCurrent s line hf hin hn hcur]; exact hc
        | some cs => rw [stepNode_field s line cs hf hin hn hcur]; exact hc
    · rw [Bool.not_eq_true] at hin
      rw [stepNode_outside s line hf hin]; exact hc

/-- The whole pass preserves positivity of the completed message counts. -/
theorem foldl_completed_pos : ∀ (ls : List String) (s : ParseState),
    (∀ x ∈ s.completed, 0 < x.messages_sent) →
    ∀ x ∈ (ls.foldl stepNode s).completed, 0 < x.messages_sent := by
  intro ls
  induction ls with
  | nil => intro s hc; exact hc
  | cons l ls ih =>
    intro s hc
    rw [List.foldl_cons]
    exact ih (stepNode s l) (stepNode_completed_pos s l hc)

/-- The field-recognizer chain never changes the node id of the in-progress
record. -/
theorem applyField_node_id (cs : NodeStats) (line : String) :
    (applyField cs line).node_id = cs.node_id := by
  unfold applyField
  repeat' split
  all_goals rfl

/-- The ids of the finalized records form a sublist of the ids held in the
state. -/
theorem finalize_ids_sublist : ∀ (s : ParseState),
    List.Sublist ((finalizeStats s).map (fun x => x.node_id)) (stateIds s) := by
  rintro ⟨fin, cur, comp⟩
  cases cur with
  | none =>
    dsimp [finalizeStats, stateIds]
    rw [List.append_nil]
  | some cs =>
    dsimp [finalizeStats, stateIds]
    by_cases hm : 0 < cs.messages_sent
    · rw [if_pos hm, List.map_append]
      exact List.Sublist.refl _
    · rw [if_neg hm]; exact List.sublist_append_left _ _

/-- One parser step extends the held ids by at most the id captured from a
node header of the line. -/
theorem stepNode_ids (s : ParseState) (line : String) :
    List.Sublist (stateIds (stepNode s line)) (stateIds s ++ (nodeStartCap line).toList) := by
  by_cases hf : finishMarker line = true
  · rw [stepNode_marker s line hf]
    rcases s with ⟨fin, cur, comp⟩
    exact List.sublist_append_left _ _
  · rw [Bool.not_eq_true] at hf
    by_cases hin : s.in_finish = true
    · cases hn : nodeStartCap line with
      | some nid =>
        rw [stepNode_nodeStart s line nid hf hin hn]
        exact (finalize_ids_sublist s).append (List.Sublist.refl [nid])
      | none =>
        cases hcur : s.current with
        | none =>
          rw [stepNode_noCurrent s line hf hin hn hcur]
          exact List.sublist_append_left _ _
        | some cs =>
          rw [stepNode_field s line cs hf hin hn hcur]
          have h1 : stateIds { s with current := some (applyField cs line) } = s.completed.map (fun x => x.node_id) ++ [(applyField cs line).node_id] := rfl
          have h2 : stateIds s = s.completed.map (fun x => x.node_id) ++ [cs.node_id] := by
            dsimp [stateIds]; rw [hcur]
          rw [h1, h2, applyField_node_id]
          exact List.sublist_append_left _ _
    · rw [Bool.not_eq_true] at hin
      rw [stepNode_outside s line hf hin]
      exact List.sublist_append_left _ _

/-- Over the whole pass, the held ids form a sublist of the node-header
captures of the processed lines. -/
theorem foldl_ids : ∀ (ls : List String) (s : ParseState),
    List.Sublist (stateIds (ls.foldl stepNode s)) (stateIds s ++ ls.filterMap nodeStartCap) := by
  intro ls
  induction ls with
  | nil =>
    intro s
    rw [List.filterMap_nil, List.append_nil]
    exact List.Sublist.refl _
  | cons l ls ih =>
    intro s
    rw [List.foldl_cons]
    have h1 := ih (stepNode s l)
    have h2 := (stepNode_ids s l).append (List.Sublist.refl (ls.filterMap nodeStartCap))
    have h3 : (stateIds s ++ (nodeStartCap l).toList) ++ ls.filterMap nodeStartCap =
        stateIds s ++ (l :: ls).filterMap nodeStartCap := by
      cases h : nodeStartCap l <;> simp [List.filterMap_cons, h]
    rw [h3] at h2
    exact h1.trans h2

/-- The leader search is the first-match search over the retained records. -/
theorem findLeaderId_eq (l : List NodeStats) :
    findLeaderId l = (match l.find? (fun s => s.is_leader) with
      | some s => (s.node_id : Int)
      | none => -1) := by
  induction l with
  | nil => rfl
  | cons s rest ih =>
    by_cases hs : s.is_leader
    · simp [findLeaderId, List.find?, hs]
    · simp [findLeaderId, List.find?, hs, ih]

/-- When no retained record is flagged as leader, the search returns the
sentinel. -/
theorem findLeaderId_of_none : ∀ (l : List NodeStats),
    (∀ r ∈ l, r.is_leader = false) → findLeaderId l = -1 := by
  intro l
  induction l with
  | nil => intro _; rfl
  | cons s rest ih =>
    intro hall
    have hs : s.is_leader = false := hall s (List.mem_cons_self _ _)
    have hrest : ∀ r ∈ rest, r.is_leader = false :=
      fun r hr => hall r (List.mem_cons_of_mem _ hr)
    simp [findLeaderId, hs, ih hrest]

/-- The running event maximum bounds every captured event number, dominates
its seed, and is either the seed or one of the captures. -/
theorem totalEventsAux_spec : ∀ (lines : List String) (acc : Nat),
    (∀ n ∈ lines.filterMap eventCap, n ≤ totalEventsAux acc lines) ∧
    acc ≤ totalEventsAux acc lines ∧
    (totalEventsAux acc lines = acc ∨ totalEventsAux acc lines ∈ lines.filterMap eventCap) := by
  intro lines
  induction lines with
  | nil =>
    intro acc
    exact ⟨by simp, Nat.le_refl _, Or.inl rfl⟩
  | cons l ls ih =>
    intro acc
    cases he : eventCap l with
    | none =>
      have h1 := ih acc
      have hred : totalEventsAux acc (l :: ls) = totalEventsAux acc ls := by
        simp [totalEventsAux, he]
      have hfm : (l :: ls).filterMap eventCap = ls.filterMap eventCap := by
        simp [List.filterMap_cons, he]
      rw [hred, hfm]
      exact h1
    | some k =>
      have h1 := ih (Nat.max acc k)
      have hred : totalEventsAux acc (l :: ls) = totalEventsAux (Nat.max acc k) ls := by
        simp [totalEventsAux, he]
      have hfm : (l :: ls).filterMap eventCap = k :: ls.filterMap eventCap := by
        simp [List.filterMap_cons, he]
      rw [hred, hfm]
      refine ⟨?_, ?_, ?_⟩
      · intro n hn
        rcases List.mem_cons.mp hn with rfl | hn2
        · exact (Nat.le_max_right acc n).trans h1.2.1
        · exact h1.1 n hn2
      · exact (Nat.le_max_left acc k).trans h1.2.1
      · rcases h1.2.2 with h | h
        · rcases Nat.le_total acc k with hle | hle
          · have hmax : Nat.max acc k = k := Nat.max_eq_right hle
            rw [h, hmax]
            exact Or.inr (List.mem_cons_self _ _)
          · have hmax : Nat.max acc k = acc := Nat.max_eq_left hle
            rw [h, hmax]
            exact Or.inl rfl
        · exact Or.inr (List.mem_cons_of_mem _ h)

/-! The claims. -/

/-- C1: once a Final State line has set the final state of the in-progress
record, a later Final Leader line (which no earlier recognizer matches)
changes neither is_leader nor final_state; in particular, the log c1log whose
node 0 sees Final State LEADER and then Final Leader 3 yields a record with
is_leader true and final_state LEADER. -/
theorem final_leader_does_not_override :
    (∀ (cs : NodeStats) (line : String) (k : Nat),
      msgSentCap line = none → roundsCompCap line = none →
      finalStateCap line = none → isLeaderCap line = none →
      finalLeaderCap line = some k → cs.final_state ≠ "" →
      applyField cs line = cs) ∧
    parseMetrics c1log = some c1M := by
  constructor
  · intro cs line k h1 h2 h3 h4 h5 h6
    unfold applyField
    simp only [h1, h2, h3, h4, h5]
    rw [if_neg h6]
  · rfl

/-- Witness for C1 at the concrete line Final Leader: 3 and a record whose
state was already LEADER. -/
theorem final_leader_does_not_override_witness :
    applyField ⟨0, 4, 0, "LEADER", true⟩ "Final Leader: 3" = ⟨0, 4, 0, "LEADER", true⟩ :=
  final_leader_does_not_override.1 ⟨0, 4, 0, "LEADER", true⟩ "Final Leader: 3" 3
    rfl rfl rfl rfl rfl (by decide)

/-- Counterexample to C2: in c2log the Final State line sets the state to
LEADER (as the parse of the five-line prefix shows), yet the later
Is Leader: NO line replaces it with NON_LEADER and clears is_leader, so the
leader-flag recognizer does overwrite an already-set final state. -/
theorem leader_flag_overwrites_cex :
    parseMetrics (c2log.take 5) = some c2Mpre ∧
    parseMetrics c2log = some c2Mfull ∧
    c2Mpre.node_stats.map (fun r => r.final_state) = ["LEADER"] ∧
    c2Mfull.node_stats.map (fun r => r.final_state) = ["NON_LEADER"] ∧
    c2Mfull.node_stats.map (fun r => r.is_leader) = [false] :=
  ⟨rfl, rfl, rfl, rfl, rfl⟩

/-- C2 as amended: a line matched by the leader-flag recognizer (and by no
earlier recognizer) always sets is_leader to the comparison of the captured
word with YES and always overwrites final_state with LEADER or NON_LEADER,
whether or not final_state was already set. -/
theorem leader_flag_overwrites :
    ∀ (cs : NodeStats) (line : String) (w : String),
      msgSentCap line = none → roundsCompCap line = none → finalStateCap line = none →
      isLeaderCap line = some w →
      applyField cs line = ⟨cs.node_id, cs.messages_sent, cs.rounds_completed,
        (if w == "YES" then "LEADER" else "NON_LEADER"), w == "YES"⟩ := by
  intro cs line w h1 h2 h3 h4
  unfold applyField
  simp only [h1, h2, h3, h4]

/-- Witness for amended C2: the leader-flag line overwrites a record whose
state was already LEADER. -/
theorem leader_flag_overwrites_witness :
    applyField ⟨0, 2, 0, "LEADER", true⟩ "Is Leader: NO" = ⟨0, 2, 0, "NON_LEADER", false⟩ :=
  leader_flag_overwrites ⟨0, 2, 0, "LEADER", true⟩ "Is Leader: NO" "NO" rfl rfl rfl rfl

/-- C3: every node record retained in the parse result has a positive
messages-sent count. -/
theorem retained_messages_pos (lines : List String) (m : AlgorithmMetrics)
    (hm : parseMetrics lines = some m) : ∀ r ∈ m.node_stats, 0 < r.messages_sent := by
  cases lines with
  | nil => simp [parseMetrics] at hm
  | cons f rest =>
    have h2 := Option.some.inj hm
    subst h2
    intro r hr
    exact finalizeStats_pos _
      (foldl_completed_pos (f :: rest) ⟨false, none, []⟩
        (by intro x hx; cases hx)) r hr

/-- Witness for C3 on the concrete log c3log. -/
theorem retained_messages_pos_witness :
    0 < (NodeStats.mk 1 7 0 "" false).messages_sent :=
  retained_messages_pos c3log c3M rfl ⟨1, 7, 0, "", false⟩ (List.mem_cons_self _ _)

/-- C4: the parse of the empty log fails (the subscript of the first line at
source line 66 raises IndexError on a log with no lines), while a malformed
nonempty log parses to all-default aggregates with an empty node list. -/
theorem empty_log_parse_fails :
    parseMetrics [] = none ∧ parseMetrics c4log = some c4M :=
  ⟨rfl, rfl⟩

/-- Counterexample to C5: the line Event number 7 followed by a node-0 header
is matched by the event-counter recognizer and nevertheless also applied by
the node-section-start recognizer: in c5log that single line both raises
total_events to 7 and opens the node-0 record that is then retained. -/
theorem event_line_reused_cex :
    eventCap "Event #7 Node 0 statistics:" = some 7 ∧
    nodeStartCap "Event #7 Node 0 statistics:" = some 0 ∧
    parseMetrics c5log = some c5M :=
  ⟨rfl, rfl, rfl⟩

/-- C5 as amended: within the finish-section pass the recognizers
section-entry, node-section-start, messages-sent, rounds-completed,
final-state (and below them leader-flag and final-leader) are tested in this
fixed order and the first match consumes the line, so a line matched by one
of them is never also applied by a later one of them; the event-counter and
round-mention recognizers however run in separate passes over every line, so
a line they match can additionally be applied by a finish-section recognizer,
as the parse of c5blog shows. -/
theorem finish_recognizers_exclusive :
    (∀ (s : ParseState) (line : String), finishMarker line = true →
      stepNode s line = { s with in_finish := true }) ∧
    (∀ (s : ParseState) (line : String) (nid : Nat), finishMarker line = false →
      s.in_finish = true → nodeStartCap line = some nid →
      (stepNode s line).current = some ⟨nid, 0, 0, "", false⟩) ∧
    (∀ (cs : NodeStats) (line : String) (n : Nat), msgSentCap line = some n →
      applyField cs line = ⟨cs.node_id, n, cs.rounds_completed, cs.final_state, cs.is_leader⟩) ∧
    (∀ (cs : NodeStats) (line : String) (n : Nat), msgSentCap line = none →
      roundsCompCap line = some n →
      applyField cs line = ⟨cs.node_id, cs.messages_sent, n, cs.final_state, cs.is_leader⟩) ∧
    (∀ (cs : NodeStats) (line : String) (w : String), msgSentCap line = none →
      roundsCompCap line = none → finalStateCap line = some w →
      applyField cs line = ⟨cs.node_id, cs.messages_sent, cs.rounds_completed, w, w == "LEADER"⟩) ∧
    parseMetrics c5blog = some c5bM := by
  refine ⟨?_, ?_, ?_, ?_, ?_, rfl⟩
  · intro s line hf
    exact stepNode_marker s line hf
  · intro s line nid hf hin hn
    rw [stepNode_nodeStart s line nid hf hin hn]
  · intro cs line n h1
    unfold applyField
    simp only [h1]
  · intro cs line n h1 h2
    unfold applyField
    simp only [h1, h2]
  · intro cs line w h1 h2 h3
    unfold applyField
    simp only [h1, h2, h3]

/-- Witness for amended C5: a line that the messages-sent recognizer matches
is consumed by it, and the final-state recognizer, which also matches the
line, is not applied. -/
theorem finish_recognizers_exclusive_witness :
    applyField ⟨0, 0, 0, "", false⟩ "Messages Sent: 5 Final State: LEADER" = ⟨0, 5, 0, "", false⟩ :=
  finish_recognizers_exclusive.2.2.1 ⟨0, 0, 0, "", false⟩
    "Messages Sent: 5 Final State: LEADER" 5 rfl

/-- C6: the leader id of a parse result is the node id of the first retained
record flagged as leader, and when no retained record is flagged the leader
id is the sentinel -1, which is no valid node id. -/
theorem leader_id_first_leader (lines : List String) (m : AlgorithmMetrics)
    (hm : parseMetrics lines = some m) :
    m.leader_id = (match m.node_stats.find? (fun s => s.is_leader) with
      | some s => (s.node_id : Int)
      | none => -1) ∧
    ((∀ r ∈ m.node_stats, r.is_leader = false) →
      m.leader_id = -1 ∧ ∀ r ∈ m.node_stats, m.leader_id ≠ (r.node_id : Int)) := by
  cases lines with
  | nil => simp [parseMetrics] at hm
  | cons f rest =>
    have h2 := Option.some.inj hm
    have hL : m.leader_id = findLeaderId (nodeStatsOf (f :: rest)) := by rw [← h2]
    have hNS : m.node_stats = nodeStatsOf (f :: rest) := by rw [← h2]
    constructor
    · rw [hL, hNS]
      exact findLeaderId_eq _
    · intro hall
      rw [hNS] at hall
      constructor
      · rw [hL]
        exact findLeaderId_of_none _ hall
      · intro r hr
        rw [hL, findLeaderId_of_none _ hall]
        omega

/-- Witness for C6 on the concrete leaderless log c6log. -/
theorem leader_id_first_leader_witness :
    c6M.leader_id = -1 :=
  ((leader_id_first_leader c6log c6M rfl).2 (by decide)).1

/-- C7: the total-events aggregate of a parse result bounds every number
captured by the event recognizer on any line of the log, in any order and any
section, and is itself 0 or one of those captures: it is the maximum capture,
0 when there is none. -/
theorem total_events_is_max (lines : List String) (m : AlgorithmMetrics)
    (hm : parseMetrics lines = some m) :
    (∀ n ∈ lines.filterMap eventCap, n ≤ m.total_events) ∧
    (m.total_events = 0 ∨ m.total_events ∈ lines.filterMap eventCap) := by
  cases lines with
  | nil => simp [parseMetrics] at hm
  | cons f rest =>
    have h2 := Option.some.inj hm
    have hT : m.total_events = totalEventsOf (f :: rest) := by rw [← h2]
    rw [hT]
    have h := totalEventsAux_spec (f :: rest) 0
    exact ⟨h.1, h.2.2⟩

/-- Witness for C7 on the log c7log with captures 5, 2, 9 in that order: the
reported total, 9, is one of the captures (and not 0). -/
theorem total_events_is_max_witness :
    c7M.total_events ∈ c7log.filterMap eventCap :=
  ((total_events_is_max c7log c7M rfl).2).resolve_left (by decide)

/-- C8: the total-messages aggregate of a parse result equals the sum of the
messages-sent counts over its retained node records. -/
theorem total_messages_is_sum (lines : List String) (m : AlgorithmMetrics)
    (hm : parseMetrics lines = some m) :
    m.total_messages = (m.node_stats.map (fun r => r.messages_sent)).sum := by
  cases lines with
  | nil => simp [parseMetrics] at hm
  | cons f rest =>
    have h2 := Option.some.inj hm
    subst h2
    rfl

/-- Witness for C8 on the two-node log c8log. -/
theorem total_messages_is_sum_witness :
    c8M.total_messages = (c8M.node_stats.map (fun r => r.messages_sent)).sum :=
  total_messages_is_sum c8log c8M rfl

/-- Counterexample to C9: the log c9log carries two node headers with the same
id 0, each followed by a nonzero message count, and its parse retains two
records both with node id 0, so the node ids are not pairwise distinct. -/
theorem duplicate_node_id_cex :
    parseMetrics c9log = some c9M ∧
    c9M.node_stats.map (fun r => r.node_id) = [0, 0] ∧
    ¬ (c9M.node_stats.map (fun r => r.node_id)).Nodup :=
  ⟨rfl, rfl, by decide⟩

/-- C9 as amended: the parser performs no deduplication, and the node ids of
the retained records are pairwise distinct whenever the ids captured by the
node-header recognizer over the lines of the log are pairwise distinct (each
retained id stems from one distinct header capture). -/
theorem node_ids_nodup_of_distinct_captures (lines : List String) (m : AlgorithmMetrics)
    (hcap : (lines.filterMap nodeStartCap).Nodup)
    (hm : parseMetrics lines = some m) :
    (m.node_stats.map (fun r => r.node_id)).Nodup := by
  cases lines with
  | nil => simp [parseMetrics] at hm
  | cons f rest =>
    have h2 := Option.some.inj hm
    have hNS : m.node_stats = nodeStatsOf (f :: rest) := by rw [← h2]
    rw [hNS]
    have hsub : List.Sublist ((nodeStatsOf (f :: rest)).map (fun r => r.node_id))
        (stateIds ((f :: rest).foldl stepNode ⟨false, none, []⟩)) :=
      finalize_ids_sublist _
    have hfold := foldl_ids (f :: rest) ⟨false, none, []⟩
    have hinit : stateIds (⟨false, none, []⟩ : ParseState) = [] := rfl
    rw [hinit, List.nil_append] at hfold
    exact hcap.sublist (hsub.trans hfold)

/-- Witness for amended C9 on the log c9wlog with distinct header ids 3, 4. -/
theorem node_ids_nodup_witness :
    (c9wM.node_stats.map (fun r => r.node_id)).Nodup :=
  node_ids_nodup_of_distinct_captures c9wlog c9wM (by decide) rfl

/-- C10: a line matched by the leader-flag recognizer (and by no earlier
recognizer) sets is_leader to true exactly when the captured word is the
uppercase token YES, and any other word, such as the lowercase yes, the
capitalized Yes, NO or TRUE, yields is_leader false with final_state
NON_LEADER while the line is still consumed by this recognizer. -/
theorem leader_flag_exact_yes :
    (∀ (cs : NodeStats) (line : String) (w : String),
      msgSentCap line = none → roundsCompCap line = none → finalStateCap line = none →
      isLeaderCap line = some w →
      ((applyField cs line).is_leader = (w == "YES") ∧
        (applyField cs line).final_state = (if w == "YES" then "LEADER" else "NON_LEADER"))) ∧
    isLeaderCap "Is Leader: yes" = some "yes" ∧
    applyField ⟨3, 0, 0, "", false⟩ "Is Leader: yes" = ⟨3, 0, 0, "NON_LEADER", false⟩ ∧
    applyField ⟨3, 0, 0, "", false⟩ "Is Leader: Yes" = ⟨3, 0, 0, "NON_LEADER", false⟩ ∧
    applyField ⟨3, 0, 0, "", false⟩ "Is Leader: NO" = ⟨3, 0, 0, "NON_LEADER", false⟩ ∧
    applyField ⟨3, 0, 0, "", false⟩ "Is Leader: TRUE" = ⟨3, 0, 0, "NON_LEADER", false⟩ ∧
    applyField ⟨3, 0, 0, "", false⟩ "Is Leader: YES" = ⟨3, 0, 0, "LEADER", true⟩ := by
  refine ⟨?_, rfl, rfl, rfl, rfl, rfl, rfl⟩
  intro cs line w h1 h2 h3 h4
  unfold applyField
  simp [h1, h2, h3, h4]

/-- Witness for C10 at the exact uppercase token YES. -/
theorem leader_flag_exact_yes_witness :
    (applyField ⟨5, 1, 0, "", false⟩ "Is Leader: YES").is_leader = ("YES" == "YES") ∧
    (applyField ⟨5, 1, 0, "", false⟩ "Is Leader: YES").final_state =
      (if ("YES" == "YES") then "LEADER" else "NON_LEADER") :=
  leader_flag_exact_yes.1 ⟨5, 1, 0, "", false⟩ "Is Leader: YES" "YES" rfl rfl rfl rfl
